import Mathlib

/-
Verification of the appointment / registration / login logic of the
Automotores Meyer dealership backend (Express + MySQL).

The Express route handlers are shallowly embedded as pure Lean functions
over an explicit database state `DB`.  Conventions of the embedding:

* Each MySQL table row becomes a structure; a table is a `List` of rows.
  `AUTO_INCREMENT` is modelled by the `nextCitaId` counter.
* SQL `DATETIME` values are represented by their canonical
  "YYYY-MM-DD HH:MM:SS" rendering; all rows inserted by the modelled
  handlers use exactly this rendering, so string equality coincides with
  `DATETIME` equality on every value the handlers produce or compare.
* JavaScript string truthiness (`if (x)`, `x || null`) is modelled by
  `optTruthy`: an absent field and an empty string are both "falsy".
* `new Date(fecha + " " + hora + ":00")` followed by the `isNaN` check is
  modelled by `parseFecha`/`parseHora`, which accept exactly the canonical
  "YYYY-MM-DD" calendar dates and "HH:MM" times the rest of the code
  produces and documents; `Date.prototype.getDay` is modelled by
  `dayOfWeek` (0 = Sunday .. 6 = Saturday, proleptic Gregorian).
* `bcrypt.hash` / `bcrypt.compare` are opaque to every property below, so
  the register and login models are parameterised by the hash function
  resp. the comparison function.
* The number of SQL statements a handler has issued before answering is
  tracked (`dbQueries`) where a claim speaks about rejection happening
  before any database statement.
* Timestamps (`creado_en`, `actualizado_en`, `fecha_registro`) and the
  success payload of login (the user object minus its password) play no
  role in any property below and are not modelled.
-/

namespace Meyer

/-! ## JavaScript truthiness for optional string fields -/

/-- Model of JS truthiness on an optional string field: `undefined`/missing
and the empty string are falsy.  `optTruthy o = some s` exactly when the
JS value is truthy, and then `s` is that value. -/
def optTruthy (o : Option String) : Option String :=
  match o with
  | none => none
  | some s => if s = "" then none else some s

/-! ## Data model (tables `usuarios`, `vehiculos`, `citas`) -/

/-- Row of the `usuarios` table. -/
structure Usuario where
  dni : String
  nombre : String
  apellido : String
  telefono : String
  password : String
  rol : String
  activo : Bool
  deriving DecidableEq, Repr

/-- Row of the `vehiculos` table.  Only the columns consulted by the
modelled endpoints (`SELECT idVehiculo, activo FROM vehiculos`) are kept;
the remaining columns (marca, modelo, anio, precio, km, stock, color,
fotos, descripcion) are never read by any modelled handler. -/
structure Vehiculo where
  idVehiculo : String
  activo : Bool
  deriving DecidableEq, Repr

/-- Row of the `citas` table.  `fecha_hora` holds the canonical
"YYYY-MM-DD HH:MM:SS" rendering of the DATETIME column. -/
structure Cita where
  id : Nat
  dni : String
  idVehiculo : Option String
  fecha_hora : String
  motivo : String
  estado : String
  admin_dni : Option String
  admin_message : Option String
  deriving DecidableEq, Repr

/-- The database state: the three tables plus the AUTO_INCREMENT counter
of `citas`. -/
structure DB where
  usuarios : List Usuario
  vehiculos : List Vehiculo
  citas : List Cita
  nextCitaId : Nat
  deriving DecidableEq, Repr

/-! ## Calendar arithmetic (model of `Date.prototype.getDay`) -/

/-- Gregorian leap-year test. -/
def isLeap (y : Nat) : Bool :=
  (y % 4 == 0 && y % 100 != 0) || y % 400 == 0

/-- Length of month `m` (1..12) in year `y`. -/
def monthLen (y m : Nat) : Nat :=
  if m = 2 then (if isLeap y then 29 else 28)
  else if m = 4 ∨ m = 6 ∨ m = 9 ∨ m = 11 then 30
  else 31

/-- Days elapsed since 0000-03-01 of the proleptic Gregorian calendar
(civil-days algorithm, valid for the four-digit years the date parser
accepts). -/
def daysFromCivil (y m d : Nat) : Nat :=
  let y2 := if m ≤ 2 then y - 1 else y
  let era := y2 / 400
  let yoe := y2 - era * 400
  let mp := (m + 9) % 12
  let doy := (153 * mp + 2) / 5 + d - 1
  let doe := yoe * 365 + yoe / 4 - yoe / 100 + doy
  era * 146097 + doe

/-- Day of week with JS `getDay` numbering: 0 = Sunday .. 6 = Saturday.
0000-03-01 was a Wednesday (3). -/
def dayOfWeek (y m d : Nat) : Nat :=
  (daysFromCivil y m d + 3) % 7

/-! ## String parsing of dates and times -/

/-- Numeric value of a decimal digit character. -/
def digitVal (c : Char) : Nat := c.toNat - 48

/-- Model of the regex `/^[0-9]{4}-[0-9]{2}-[0-9]{2}$/` used by the
availability endpoint. -/
def dateFormatOk (s : String) : Bool :=
  match s.toList with
  | [a, b, c, d, '-', e, f, '-', g, h] =>
    a.isDigit && b.isDigit && c.isDigit && d.isDigit &&
    e.isDigit && f.isDigit && g.isDigit && h.isDigit
  | _ => false

/-- Parse a canonical "YYYY-MM-DD" calendar date.  Together with
`parseHora` this models `new Date(fecha + " " + hora + ":00")` plus the
`isNaN(fechaHora.getTime())` validity gate on the canonical inputs the
application documents and produces. -/
def parseFecha (s : String) : Option (Nat × Nat × Nat) :=
  match s.toList with
  | [a, b, c, d, '-', e, f, '-', g, h] =>
    if a.isDigit && b.isDigit && c.isDigit && d.isDigit &&
       e.isDigit && f.isDigit && g.isDigit && h.isDigit then
      let y := digitVal a * 1000 + digitVal b * 100 + digitVal c * 10 + digitVal d
      let m := digitVal e * 10 + digitVal f
      let dd := digitVal g * 10 + digitVal h
      if 1 ≤ m ∧ m ≤ 12 ∧ 1 ≤ dd ∧ dd ≤ monthLen y m then some (y, m, dd)
      else none
    else none
  | _ => none

/-- Parse a canonical "HH:MM" time of day. -/
def parseHora (s : String) : Option (Nat × Nat) :=
  match s.toList with
  | [a, b, ':', c, d] =>
    if a.isDigit && b.isDigit && c.isDigit && d.isDigit then
      let hh := digitVal a * 10 + digitVal b
      let mi := digitVal c * 10 + digitVal d
      if hh < 24 ∧ mi < 60 then some (hh, mi) else none
    else none
  | _ => none

/-- The combined key `fecha + " " + hora + ":00"` built by the handlers. -/
def fechaHoraStr (fecha hora : String) : String :=
  fecha ++ " " ++ hora ++ ":00"

/-! ## GET /api/citas/availability -/

/-- The seven fixed candidate slots, in the order the handler emits them. -/
def slotTimes : List String :=
  ["09:00", "10:00", "11:00", "12:00", "15:00", "16:00", "17:00"]

/-- One entry of the availability reply. -/
structure Slot where
  time : String
  available : Bool
  deriving DecidableEq, Repr

/-- Result of the availability endpoint: a 4xx error or the slot list. -/
inductive AvailResult where
  | error (status : Nat) (message : String)
  | ok (slots : List Slot)
  deriving DecidableEq, Repr

/-- Model of `SELECT COUNT(*) FROM citas WHERE fecha_hora = ?` optionally
`AND idVehiculo = ?`.  SQL `=` never matches a NULL `idVehiculo`. -/
def countCitasAt (citas : List Cita) (veh : Option String) (fh : String) : Nat :=
  match veh with
  | some v => (citas.filter (fun c => c.fecha_hora == fh && c.idVehiculo == some v)).length
  | none => (citas.filter (fun c => c.fecha_hora == fh)).length

/-- Model of `app.get('/api/citas/availability')`: validates the `date`
query parameter, then reports for each of the seven slots whether the
count of occupying rows is zero. -/
def availability (db : DB) (date : String) (idVehiculo : Option String) : AvailResult :=
  if date = "" then
    .error 400 "Se requiere el parámetro date (YYYY-MM-DD)"
  else if !(dateFormatOk date) then
    .error 400 "Formato de fecha inválido. Use YYYY-MM-DD"
  else
    .ok (slotTimes.map (fun t =>
      let fh := date ++ " " ++ t ++ ":00"
      let cnt := countCitasAt db.citas (optTruthy idVehiculo) fh
      { time := t, available := cnt == 0 }))

/-! ## POST /api/citas -/

/-- Body of an appointment-creation request. -/
structure CreateReq where
  dni : String
  idVehiculo : Option String
  fecha : String
  hora : String
  motivo : String
  deriving DecidableEq, Repr

/-- Result of the creation endpoint: HTTP status, `success` flag, message,
the database after the call, and the number of SQL statements the handler
issued before answering. -/
structure CreateResult where
  status : Nat
  success : Bool
  message : String
  db : DB
  dbQueries : Nat
  deriving DecidableEq, Repr

/-- The business-hours predicate of the creation handler:
(hour >= 9 && (hour < 13 || (hour == 13 && minute == 0))) ||
(hour >= 15 && (hour < 18 || (hour == 18 && minute == 0))). -/
def timeAllowed (hh mi : Nat) : Bool :=
  (decide (9 ≤ hh) && (decide (hh < 13) || (hh == 13 && mi == 0))) ||
  (decide (15 ≤ hh) && (decide (hh < 18) || (hh == 18 && mi == 0)))

/-- Model of `app.post('/api/citas')`: field presence, date validity,
weekday and business-hours checks (all before any SQL), then user lookup,
optional vehicle lookup, the slot-collision check, and the insert. -/
def createCita (db : DB) (req : CreateReq) : CreateResult :=
  if req.dni = "" ∨ req.fecha = "" ∨ req.hora = "" ∨ req.motivo = "" then
    { status := 400, success := false
      message := "Todos los campos obligatorios (dni, fecha, hora, motivo) deben ser completados"
      db := db, dbQueries := 0 }
  else
    match parseFecha req.fecha, parseHora req.hora with
    | some (y, m, d), some (hh, mi) =>
      if dayOfWeek y m d = 0 ∨ dayOfWeek y m d = 6 then
        { status := 400, success := false
          message := "Las citas solo se pueden agendar de lunes a viernes"
          db := db, dbQueries := 0 }
      else if !timeAllowed hh mi then
        { status := 400, success := false
          message := "Horario inválido. Disponibles: 09:00-13:00 y 15:00-18:00"
          db := db, dbQueries := 0 }
      else if !(db.usuarios.any (fun u => u.dni == req.dni)) then
        { status := 400, success := false, message := "Usuario no encontrado"
          db := db, dbQueries := 1 }
      else
        let fh := fechaHoraStr req.fecha req.hora
        match optTruthy req.idVehiculo with
        | some v =>
          match db.vehiculos.find? (fun w => w.idVehiculo == v) with
          | none =>
            { status := 400, success := false, message := "Vehículo no disponible"
              db := db, dbQueries := 2 }
          | some w =>
            if !w.activo then
              { status := 400, success := false, message := "Vehículo no disponible"
                db := db, dbQueries := 2 }
            else if db.citas.any (fun c => c.idVehiculo == some v && c.fecha_hora == fh) then
              { status := 409, success := false
                message := "El horario seleccionado ya está ocupado"
                db := db, dbQueries := 3 }
            else
              { status := 201, success := true, message := "Cita agendada"
                db := { db with
                  citas := db.citas ++
                    [{ id := db.nextCitaId, dni := req.dni, idVehiculo := some v
                       fecha_hora := fh, motivo := req.motivo, estado := "pendiente"
                       admin_dni := none, admin_message := none }]
                  nextCitaId := db.nextCitaId + 1 }
                dbQueries := 4 }
        | none =>
          if db.citas.any (fun c => c.fecha_hora == fh) then
            { status := 409, success := false
              message := "El horario seleccionado ya está ocupado"
              db := db, dbQueries := 2 }
          else
            { status := 201, success := true, message := "Cita agendada"
              db := { db with
                citas := db.citas ++
                  [{ id := db.nextCitaId, dni := req.dni, idVehiculo := none
                     fecha_hora := fh, motivo := req.motivo, estado := "pendiente"
                     admin_dni := none, admin_message := none }]
                nextCitaId := db.nextCitaId + 1 }
              dbQueries := 3 }
    | _, _ =>
      { status := 400, success := false, message := "Fecha u hora inválida"
        db := db, dbQueries := 0 }

/-- Sequential execution of a list of creation requests. -/
def runCreates (db : DB) (reqs : List CreateReq) : DB :=
  reqs.foldl (fun d r => (createCita d r).db) db

/-! ## PATCH /api/citas/:id and PUT /api/citas/:id -/

/-- Body of an admin status-update request. -/
structure UpdateReq where
  estado : String
  adminDni : String
  adminMessage : Option String
  deriving DecidableEq, Repr

/-- Result of the status-update endpoint. -/
structure UpdateResult where
  status : Nat
  success : Bool
  message : String
  db : DB
  deriving DecidableEq, Repr

/-- Model of `String.prototype.toLowerCase` on the character list (the
status strings the handler compares are ASCII). -/
def lowerStr (s : String) : String := String.mk (s.data.map Char.toLower)

/-- The legacy-value mapping and lowercasing the update handler applies to
the requested status, in source order: cancelada → rechazada,
completada → aceptada, then `toLowerCase`. -/
def normalizeEstado (e : String) : String :=
  let e1 := if e == "cancelada" then "rechazada" else e
  let e2 := if e1 == "completada" then "aceptada" else e1
  lowerStr e2

/-- Model of `app.patch('/api/citas/:id')` (the PUT route is the same
code): field validation, status normalisation and whitelist, admin lookup
and role check, appointment existence check, then the UPDATE — storing the
supplied message for `rechazada` and NULL otherwise — followed by the
JOIN-based re-SELECT whose empty result yields a 500 *after* the update
has been applied. -/
def updateCita (db : DB) (id : Nat) (req : UpdateReq) : UpdateResult :=
  if req.estado = "" ∨ req.adminDni = "" then
    { status := 400, success := false
      message := "Faltan datos: estado y adminDni son requeridos", db := db }
  else
    let estado := normalizeEstado req.estado
    if !(estado == "pendiente" || estado == "aceptada" || estado == "rechazada") then
      { status := 400, success := false
        message := "Estado inválido. Use: pendiente, aceptada o rechazada", db := db }
    else
      match db.usuarios.find? (fun u => u.dni == req.adminDni) with
      | none =>
        { status := 403, success := false, message := "Administrador no encontrado", db := db }
      | some u =>
        if u.rol ≠ "admin" then
          { status := 403, success := false
            message := "Acceso denegado. Se requiere rol admin", db := db }
        else if !(db.citas.any (fun c => c.id == id)) then
          { status := 404, success := false, message := "Cita no encontrada", db := db }
        else
          let msg : Option String :=
            if estado == "rechazada" then optTruthy req.adminMessage else none
          let citas2 := db.citas.map (fun c =>
            if c.id == id then
              { c with estado := estado, admin_dni := some req.adminDni, admin_message := msg }
            else c)
          let db2 := { db with citas := citas2 }
          if citas2.any (fun c => c.id == id && db.usuarios.any (fun u2 => u2.dni == c.dni)) then
            { status := 200, success := true
              message := "Cita " ++ estado ++ " exitosamente", db := db2 }
          else
            { status := 500, success := false
              message := "Error al recuperar la cita actualizada", db := db2 }

/-! ## POST /api/register -/

/-- Body of a registration request. -/
structure RegisterReq where
  dni : String
  nombre : String
  apellido : String
  telefono : String
  password : String
  rol : Option String
  creatorDni : Option String
  deriving DecidableEq, Repr

/-- Result of the register endpoint. -/
structure RegisterResult where
  status : Nat
  success : Bool
  message : String
  db : DB
  deriving DecidableEq, Repr

/-- The check `rol && !['admin', 'cliente'].includes(rol)`. -/
def rolInvalid (rol : Option String) : Bool :=
  match optTruthy rol with
  | some r => !(r == "admin" || r == "cliente")
  | none => false

/-- The duplicate-DNI check, duplicate-phone check and INSERT shared by
both arms of the creator branch of the register handler, with the role
decided by that branch. -/
def registerInsertPhase (hash : String → String) (db : DB) (req : RegisterReq)
    (finalRole : String) : RegisterResult :=
  if db.usuarios.any (fun u => u.dni == req.dni) then
    { status := 400, success := false, message := "Ya existe una cuenta con este DNI", db := db }
  else if db.usuarios.any (fun u => u.telefono == req.telefono) then
    { status := 400, success := false
      message := "Ya existe una cuenta con este teléfono", db := db }
  else
    { status := 201, success := true, message := "Usuario registrado exitosamente"
      db := { db with usuarios := db.usuarios ++
        [{ dni := req.dni, nombre := req.nombre, apellido := req.apellido
           telefono := req.telefono, password := hash req.password
           rol := finalRole, activo := true }] } }

/-- Model of `app.post('/api/register')`, parameterised by the bcrypt hash
function: field presence, password length, role whitelist, the
creator-DNI branch (a creator's admin role makes the new user an admin, a
missing creator forbids requesting `admin`), then uniqueness checks and
the INSERT (with `activo` defaulting to TRUE). -/
def registerUser (hash : String → String) (db : DB) (req : RegisterReq) : RegisterResult :=
  if req.dni = "" ∨ req.nombre = "" ∨ req.apellido = "" ∨ req.telefono = "" ∨ req.password = "" then
    { status := 400, success := false
      message := "DNI, nombre, apellido, teléfono y contraseña son obligatorios", db := db }
  else if req.password.length < 6 then
    { status := 400, success := false
      message := "La contraseña debe tener al menos 6 caracteres", db := db }
  else if rolInvalid req.rol then
    { status := 400, success := false
      message := "El rol debe ser \"admin\" o \"cliente\"", db := db }
  else
    match optTruthy req.creatorDni with
    | some cd =>
      match db.usuarios.find? (fun u => u.dni == cd) with
      | none =>
        { status := 403, success := false
          message := "Acceso denegado. Usuario creador no encontrado.", db := db }
      | some cu =>
        registerInsertPhase hash db req (if cu.rol == "admin" then "admin" else "cliente")
    | none =>
      if req.rol == some "admin" then
        { status := 403, success := false
          message := "No está permitido crear administradores desde el registro público. Use la opción interna para administradores."
          db := db }
      else
        registerInsertPhase hash db req
          (match optTruthy req.rol with
           | some r => r
           | none => "cliente")

/-! ## POST /api/login -/

/-- Result of the login endpoint.  `comparedPassword` records whether the
handler invoked `bcrypt.compare` before answering; the success payload
(the user row minus its password) carries no information any property
below needs and is not modelled. -/
structure LoginResult where
  status : Nat
  success : Bool
  message : String
  comparedPassword : Bool
  deriving DecidableEq, Repr

/-- Model of `app.post('/api/login')`, parameterised by the bcrypt
comparison function: field presence, user lookup, the `activo` gate, and
only then the password comparison. -/
def login (bcompare : String → String → Bool) (db : DB) (dni password : String) : LoginResult :=
  if dni = "" ∨ password = "" then
    { status := 400, success := false
      message := "DNI y contraseña son obligatorios", comparedPassword := false }
  else
    match db.usuarios.find? (fun u => u.dni == dni) with
    | none =>
      { status := 401, success := false
        message := "Credenciales incorrectas", comparedPassword := false }
    | some user =>
      if !user.activo then
        { status := 401, success := false
          message := "Cuenta desactivada", comparedPassword := false }
      else if !bcompare password user.password then
        { status := 401, success := false
          message := "Credenciales incorrectas", comparedPassword := true }
      else
        { status := 200, success := true
          message := "Login exitoso", comparedPassword := true }

/-! ## Specification-side predicates -/

/-- Number of appointment rows occupying a given (vehicle, date-time) key;
`v = none` counts the rows that specify no vehicle. -/
def slotCount (citas : List Cita) (v : Option String) (fh : String) : Nat :=
  (citas.filter (fun c => c.idVehiculo == v && c.fecha_hora == fh)).length

/-- The uniqueness invariant of the spec: at most one appointment per
date-time among vehicle-less appointments, and at most one per
(vehicle, date-time) pair among vehicle appointments. -/
def UniqueSlots (db : DB) : Prop :=
  ∀ v fh, slotCount db.citas v fh ≤ 1

/-! ## Concrete fixtures used by witnesses and counterexamples -/

/-- A client user, as seeded by `createTables`. -/
def wCliente : Usuario :=
  { dni := "87654321", nombre := "Juan", apellido := "Perez"
    telefono := "3417654321", password := "hcliente", rol := "cliente", activo := true }

/-- An admin user, as seeded by `createTables`. -/
def wAdmin : Usuario :=
  { dni := "12345678", nombre := "Administrador", apellido := "Sistema"
    telefono := "3411234567", password := "hadmin", rol := "admin", activo := true }

/-- A deactivated user. -/
def wInactivo : Usuario :=
  { dni := "55555555", nombre := "Rita", apellido := "Paz"
    telefono := "3415555555", password := "hrita", rol := "cliente", activo := false }

/-- A pending appointment occupying the Monday 2024-01-15 09:00 slot with
no vehicle. -/
def wCitaOcupada : Cita :=
  { id := 1, dni := "87654321", idVehiculo := none
    fecha_hora := "2024-01-15 09:00:00", motivo := "consulta"
    estado := "pendiente", admin_dni := none, admin_message := none }

/-- The occupied-slot appointment after an admin accepted it. -/
def wCitaAceptada : Cita :=
  { wCitaOcupada with estado := "aceptada", admin_dni := some "12345678" }

/-- Base state: the two seeded users, no vehicles, no appointments. -/
def wDB : DB := { usuarios := [wCliente, wAdmin], vehiculos := [], citas := [], nextCitaId := 1 }

/-- A completely empty database. -/
def wDBvacia : DB := { usuarios := [], vehiculos := [], citas := [], nextCitaId := 1 }

/-- State in which the 2024-01-15 09:00 slot is taken by a pending
vehicle-less appointment. -/
def wDBocupada : DB := { wDB with citas := [wCitaOcupada], nextCitaId := 2 }

/-- State in which the 2024-01-15 09:00 appointment has been accepted. -/
def wDBaceptada : DB := { wDB with citas := [wCitaAceptada], nextCitaId := 2 }

/-- State containing a deactivated user besides the seeded ones. -/
def wDBinactivo : DB := { wDB with usuarios := [wCliente, wAdmin, wInactivo] }

/-- A creation request by the seeded client for the occupied slot. -/
def wReqLunes : CreateReq :=
  { dni := "87654321", idVehiculo := none, fecha := "2024-01-15", hora := "09:00"
    motivo := "consulta" }

/-- A creation request by a DNI that belongs to no user, for the occupied
slot. -/
def wReqFantasma : CreateReq := { wReqLunes with dni := "99999999" }

/-- A creation request for Saturday 2024-01-13 at 09:00. -/
def wReqSabado : CreateReq := { wReqLunes with fecha := "2024-01-13" }

/-- A registration request. -/
def wRegAna : RegisterReq :=
  { dni := "1", nombre := "Ana", apellido := "Gomez", telefono := "3410000001"
    password := "secreta", rol := none, creatorDni := none }

/-- A second registration request with a fresh DNI but the phone of
`wRegAna`. -/
def wRegBob : RegisterReq :=
  { dni := "2", nombre := "Bob", apellido := "Diaz", telefono := "3410000001"
    password := "secreta", rol := none, creatorDni := none }

/-- A public registration request asking for the admin role without a
creator DNI. -/
def wRegAdminPublico : RegisterReq :=
  { dni := "3", nombre := "Eva", apellido := "Luz", telefono := "3410000003"
    password := "secreta", rol := some "admin", creatorDni := none }

/-! ## Helper lemmas -/

/-- The occupancy count of a slot is zero exactly when no appointment row
occupies it (scoped to the vehicle when one is given). -/
theorem countCitasAt_eq_zero_iff (citas : List Cita) (veh : Option String) (fh : String) :
    countCitasAt citas veh fh = 0 ↔
      ¬ ∃ c ∈ citas, c.fecha_hora = fh ∧ ∀ v, veh = some v → c.idVehiculo = some v := by
  cases veh with
  | none =>
    simp only [countCitasAt, List.length_eq_zero, List.filter_eq_nil_iff]
    constructor
    · intro hall ⟨c, hc, hfh, _⟩
      exact hall c hc (by simp [hfh])
    · intro hne c hc hp
      exact hne ⟨c, hc, by simpa using hp, fun v hv => nomatch hv⟩
  | some v0 =>
    simp only [countCitasAt, List.length_eq_zero, List.filter_eq_nil_iff]
    constructor
    · intro hall ⟨c, hc, hfh, hsc⟩
      exact hall c hc (by simp [hfh, hsc v0 rfl])
    · intro hne c hc hp
      simp only [Bool.and_eq_true, beq_iff_eq] at hp
      exact hne ⟨c, hc, hp.1, fun v hv => by cases hv; exact hp.2⟩

/-- Appending one row adds its occupancy to exactly its own
(vehicle, date-time) key. -/
theorem slotCount_append (l : List Cita) (x : Cita) (v : Option String) (fh : String) :
    slotCount (l ++ [x]) v fh =
      slotCount l v fh + (if x.idVehiculo == v && x.fecha_hora == fh then 1 else 0) := by
  by_cases hx : (x.idVehiculo == v && x.fecha_hora == fh) = true <;>
    simp [slotCount, List.filter_append, hx]

/-- The creation handler leaves the appointments table unchanged or
appends exactly one row whose (vehicle, date-time) key no existing row
occupied. -/
theorem createCita_citas_shape (db : DB) (req : CreateReq) :
    (createCita db req).db.citas = db.citas ∨
    ∃ nu, (createCita db req).db.citas = db.citas ++ [nu] ∧
      ∀ c ∈ db.citas, ¬(c.idVehiculo = nu.idVehiculo ∧ c.fecha_hora = nu.fecha_hora) := by
  simp only [createCita]
  repeat' split
  all_goals try exact Or.inl rfl
  all_goals refine Or.inr ⟨_, rfl, ?_⟩
  all_goals
    rename_i hno
    simp only [Bool.not_eq_true, List.any_eq_false] at hno
    intro c hc hcontra
    exact absurd (hno c hc) (by simp [hcontra.1, hcontra.2])

/-! ## Claim theorems -/

/-- C1: for every well-formed date string (and optional vehicle id) the
availability endpoint answers with exactly the seven fixed slots 09:00,
10:00, 11:00, 12:00, 15:00, 16:00, 17:00 in that order, and a slot is
reported `available = false` iff at least one appointment row (of any
status) occupies its exact date-time, restricted to the given vehicle
when one is supplied. -/
theorem availability_seven_slots_iff_occupied (db : DB) (date : String) (veh : Option String)
    (h : dateFormatOk date = true) :
    ∃ slots, availability db date veh = AvailResult.ok slots ∧
      slots.map Slot.time = slotTimes ∧
      ∀ s ∈ slots, (s.available = false ↔
        ∃ c ∈ db.citas, c.fecha_hora = date ++ " " ++ s.time ++ ":00" ∧
          ∀ v, optTruthy veh = some v → c.idVehiculo = some v) := by
  have hne : date ≠ "" := by
    intro he
    rw [he] at h
    exact absurd h (by decide)
  refine ⟨slotTimes.map (fun t =>
    { time := t
      available := countCitasAt db.citas (optTruthy veh) (date ++ " " ++ t ++ ":00") == 0 }),
    ?_, ?_, ?_⟩
  · unfold availability
    rw [if_neg hne, h]
    rfl
  · rfl
  · intro s hs
    rw [List.mem_map] at hs
    obtain ⟨t, _, rfl⟩ := hs
    simp only [beq_eq_false_iff_ne, ne_eq]
    rw [not_iff_comm, countCitasAt_eq_zero_iff]

/-- Witness for C1: the base state with the 09:00 slot of 2024-01-15
occupied, queried for that date without a vehicle. -/
theorem availability_seven_slots_iff_occupied_witness :
    ∃ slots, availability wDBocupada "2024-01-15" none = AvailResult.ok slots ∧
      slots.map Slot.time = slotTimes ∧
      ∀ s ∈ slots, (s.available = false ↔
        ∃ c ∈ wDBocupada.citas, c.fecha_hora = "2024-01-15" ++ " " ++ s.time ++ ":00" ∧
          ∀ v, optTruthy none = some v → c.idVehiculo = some v) :=
  availability_seven_slots_iff_occupied wDBocupada "2024-01-15" none (by decide)

/-- A single appointment creation preserves the uniqueness invariant. -/
theorem createCita_preserves_uniqueSlots (db : DB) (req : CreateReq)
    (h : UniqueSlots db) : UniqueSlots (createCita db req).db := by
  intro v fh
  rcases createCita_citas_shape db req with hsame | ⟨nu, happ, hfresh⟩
  · rw [hsame]
    exact h v fh
  · rw [happ, slotCount_append]
    split
    · rename_i hx
      simp only [Bool.and_eq_true, beq_iff_eq] at hx
      have h0 : slotCount db.citas v fh = 0 := by
        simp only [slotCount, List.length_eq_zero, List.filter_eq_nil_iff]
        intro c hc
        simp only [Bool.and_eq_true, beq_iff_eq, not_and]
        intro hcv hcf
        exact hfresh c hc ⟨by rw [hcv, ← hx.1], by rw [hcf, ← hx.2]⟩
      omega
    · have := h v fh
      omega

/-- C3: starting from any state satisfying the uniqueness invariant — at
most one appointment per date-time among vehicle-less appointments, at
most one per (vehicle, date-time) pair among vehicle ones — every
sequence of sequentially executed appointment-creation operations
preserves it: the pre-insert existence check is sound. -/
theorem runCreates_preserves_uniqueSlots (db : DB) (reqs : List CreateReq)
    (h : UniqueSlots db) : UniqueSlots (runCreates db reqs) := by
  have hgen : ∀ (d : DB), UniqueSlots d → UniqueSlots (runCreates d reqs) := by
    induction reqs with
    | nil => exact fun d hd => hd
    | cons r rs ih =>
      exact fun d hd => ih (createCita d r).db (createCita_preserves_uniqueSlots d r hd)
  exact hgen db h

/-- Witness for C3: two identical creation requests run from the base
state (the second is a collision and is refused). -/
theorem runCreates_preserves_uniqueSlots_witness :
    UniqueSlots (runCreates wDB [wReqLunes, wReqLunes]) :=
  runCreates_preserves_uniqueSlots wDB [wReqLunes, wReqLunes]
    (fun v fh => by simp [wDB, slotCount])

/-- C2 counterexample: the 2024-01-15 09:00 slot is occupied (no vehicle
given), yet the creation request — whose DNI belongs to no user — is
answered 400, not 409 (the handler validates the requester before the
collision check), though indeed no row is inserted. -/
theorem createCita_occupied_not_always_409 :
    wDBocupada.citas.any (fun c =>
      c.fecha_hora == fechaHoraStr wReqFantasma.fecha wReqFantasma.hora) = true ∧
    (createCita wDBocupada wReqFantasma).status = 400 ∧
    (createCita wDBocupada wReqFantasma).status ≠ 409 ∧
    (createCita wDBocupada wReqFantasma).success = false ∧
    (createCita wDBocupada wReqFantasma).db = wDBocupada := by decide

/-- C2 (amended): an appointment-creation request whose slot is already
occupied — by a same-vehicle appointment when a vehicle is supplied, by
any appointment when not — is answered 409 with `success = false` and
leaves the database unchanged, provided the request passes the
validations that precede the collision check: non-empty fields, a
parseable weekday date-time within business hours, an existing requesting
user, and an existing active vehicle when one is supplied. -/
theorem createCita_occupied_valid_request_409 (db : DB) (req : CreateReq)
    (y m d hh mi : Nat)
    (hdni : req.dni ≠ "") (hmot : req.motivo ≠ "")
    (hf : parseFecha req.fecha = some (y, m, d))
    (hhora : parseHora req.hora = some (hh, mi))
    (hday : dayOfWeek y m d ≠ 0 ∧ dayOfWeek y m d ≠ 6)
    (htime : timeAllowed hh mi = true)
    (huser : db.usuarios.any (fun u => u.dni == req.dni) = true)
    (hveh : ∀ v, optTruthy req.idVehiculo = some v →
      ∃ w, db.vehiculos.find? (fun w2 => w2.idVehiculo == v) = some w ∧ w.activo = true)
    (hocc : match optTruthy req.idVehiculo with
      | some v => db.citas.any (fun c =>
          c.idVehiculo == some v && c.fecha_hora == fechaHoraStr req.fecha req.hora) = true
      | none => db.citas.any (fun c =>
          c.fecha_hora == fechaHoraStr req.fecha req.hora) = true) :
    (createCita db req).status = 409 ∧ (createCita db req).success = false ∧
      (createCita db req).db = db := by
  have hfe : req.fecha ≠ "" := by
    intro he
    rw [he, show parseFecha "" = none from rfl] at hf
    simp at hf
  have hho : req.hora ≠ "" := by
    intro he
    rw [he, show parseHora "" = none from rfl] at hhora
    simp at hhora
  have hcond1 : ¬(req.dni = "" ∨ req.fecha = "" ∨ req.hora = "" ∨ req.motivo = "") := by
    simp [hdni, hfe, hho, hmot]
  have hcond2 : ¬(dayOfWeek y m d = 0 ∨ dayOfWeek y m d = 6) := not_or.mpr hday
  simp only [createCita, hf, hhora, if_neg hcond1, if_neg hcond2, htime, huser,
    Bool.not_true, Bool.false_eq_true, if_false]
  cases hov : optTruthy req.idVehiculo with
  | none =>
    rw [hov] at hocc
    simp only [hov, hocc, if_true]
    refine ⟨?_, ?_, ?_⟩ <;> trivial
  | some v =>
    obtain ⟨w, hw, hact⟩ := hveh v hov
    rw [hov] at hocc
    simp only [hov, hw, hact, Bool.not_true, Bool.false_eq_true, if_false, hocc, if_true]
    refine ⟨?_, ?_, ?_⟩ <;> trivial

/-- Witness for C2 (amended): the seeded client re-requests the occupied
Monday 09:00 slot and receives the 409. -/
theorem createCita_occupied_valid_request_409_witness :
    (createCita wDBocupada wReqLunes).status = 409 ∧
    (createCita wDBocupada wReqLunes).success = false ∧
    (createCita wDBocupada wReqLunes).db = wDBocupada :=
  createCita_occupied_valid_request_409 wDBocupada wReqLunes 2024 1 15 9 0
    (by decide) (by decide) (by decide) (by decide) ⟨by decide, by decide⟩
    (by decide) (by decide) (fun v hv => nomatch hv)
    (by exact (by decide : (wDBocupada.citas.any fun c =>
      c.fecha_hora == fechaHoraStr wReqLunes.fecha wReqLunes.hora) = true))

/-- Reduction of the update handler on the path where the fields are
present, the target status is on the whitelist, the acting user exists
with the admin role and the appointment exists: the appointments table
becomes the pointwise update, whatever the join-based re-SELECT then
answers. -/
theorem updateCita_good_path (db : DB) (id : Nat) (req : UpdateReq) (u : Usuario)
    (hne : req.estado ≠ "") (hdni : req.adminDni ≠ "")
    (hbool : (normalizeEstado req.estado == "pendiente" ||
      normalizeEstado req.estado == "aceptada" ||
      normalizeEstado req.estado == "rechazada") = true)
    (hadm : db.usuarios.find? (fun u2 => u2.dni == req.adminDni) = some u)
    (hrol : u.rol = "admin")
    (hex : db.citas.any (fun c => c.id == id) = true) :
    (updateCita db id req).db.citas = db.citas.map (fun c =>
      if c.id == id then
        { c with estado := normalizeEstado req.estado
                 admin_dni := some req.adminDni
                 admin_message := if normalizeEstado req.estado == "rechazada"
                   then optTruthy req.adminMessage else none }
      else c) := by
  simp only [updateCita]
  rw [if_neg (show ¬(req.estado = "" ∨ req.adminDni = "") by simp [hne, hdni])]
  rw [if_neg (show ¬((!(normalizeEstado req.estado == "pendiente" ||
    normalizeEstado req.estado == "aceptada" ||
    normalizeEstado req.estado == "rechazada")) = true) by rw [hbool]; decide)]
  simp only [hadm]
  rw [if_neg (show ¬(u.rol ≠ "admin") by simp [hrol])]
  rw [if_neg (show ¬((!db.citas.any fun c => c.id == id) = true) by rw [hex]; decide)]
  split <;> split <;> rfl

/-- C4 counterexample: the single appointment is already `aceptada`, yet
a status update to `rechazada` by the seeded admin succeeds and changes
the status — the handler never inspects the current status, so `aceptada`
and `rechazada` are not terminal. -/
theorem updateCita_changes_accepted_status :
    wDBaceptada.citas.map Cita.estado = ["aceptada"] ∧
    (updateCita wDBaceptada 1
      { estado := "rechazada", adminDni := "12345678", adminMessage := none }).success = true ∧
    (updateCita wDBaceptada 1
      { estado := "rechazada", adminDni := "12345678", adminMessage := none }).db.citas.map
        Cita.estado = ["rechazada"] := by decide

/-- C4 (amended): an admin status update (PATCH or PUT) of an existing
appointment by an existing admin with a whitelisted target status sets
the status of the addressed appointment to the normalised target
regardless of its current status — including transitions out of
`aceptada`/`rechazada` and back to `pendiente`; no terminality is
enforced. -/
theorem updateCita_applies_status_regardless (db : DB) (id : Nat) (req : UpdateReq)
    (u : Usuario)
    (hne : req.estado ≠ "") (hdni : req.adminDni ≠ "")
    (hval : normalizeEstado req.estado = "pendiente" ∨ normalizeEstado req.estado = "aceptada" ∨
      normalizeEstado req.estado = "rechazada")
    (hadm : db.usuarios.find? (fun u2 => u2.dni == req.adminDni) = some u)
    (hrol : u.rol = "admin")
    (hex : db.citas.any (fun c => c.id == id) = true) :
    (∀ c ∈ (updateCita db id req).db.citas, c.id = id →
      c.estado = normalizeEstado req.estado) ∧
    (updateCita db id req).db.citas.any (fun c => c.id == id) = true := by
  have hbool : (normalizeEstado req.estado == "pendiente" ||
      normalizeEstado req.estado == "aceptada" ||
      normalizeEstado req.estado == "rechazada") = true := by
    rcases hval with h | h | h <;> simp [h]
  rw [updateCita_good_path db id req u hne hdni hbool hadm hrol hex]
  constructor
  · intro c hc hcid
    rw [List.mem_map] at hc
    obtain ⟨c0, _, rfl⟩ := hc
    by_cases h0 : (c0.id == id) = true
    · simp [h0]
    · rw [if_neg h0] at hcid
      exact absurd (by simp [hcid]) h0
  · rw [List.any_eq_true] at hex ⊢
    obtain ⟨c0, hc0, hid⟩ := hex
    refine ⟨_, List.mem_map.mpr ⟨c0, hc0, rfl⟩, ?_⟩
    simp [hid]

/-- Witness for C4 (amended): the accepted appointment is moved to
`rechazada` by the seeded admin. -/
theorem updateCita_applies_status_regardless_witness :
    (∀ c ∈ (updateCita wDBaceptada 1
        { estado := "rechazada", adminDni := "12345678", adminMessage := none }).db.citas,
      c.id = 1 → c.estado = normalizeEstado "rechazada") ∧
    (updateCita wDBaceptada 1
      { estado := "rechazada", adminDni := "12345678", adminMessage := none }).db.citas.any
        (fun c => c.id == 1) = true :=
  updateCita_applies_status_regardless wDBaceptada 1
    { estado := "rechazada", adminDni := "12345678", adminMessage := none } wAdmin
    (by decide) (by decide) (Or.inr (Or.inr (by decide))) (by decide) (by decide) (by decide)

/-- C5: an admin status update of an existing appointment by an existing
admin clears the admin message (NULL) when the target is `aceptada` and
stores the supplied message — NULL when none or an empty one was supplied
— when the target is `rechazada`; in both cases the acting admin's DNI is
recorded on the row. -/
theorem updateCita_admin_message_semantics (db : DB) (id : Nat) (req : UpdateReq)
    (u : Usuario)
    (hdni : req.adminDni ≠ "")
    (hadm : db.usuarios.find? (fun u2 => u2.dni == req.adminDni) = some u)
    (hrol : u.rol = "admin")
    (hex : db.citas.any (fun c => c.id == id) = true) :
    (normalizeEstado req.estado = "aceptada" →
      ∀ c ∈ (updateCita db id req).db.citas, c.id = id →
        c.admin_message = none ∧ c.admin_dni = some req.adminDni) ∧
    (normalizeEstado req.estado = "rechazada" →
      ∀ c ∈ (updateCita db id req).db.citas, c.id = id →
        c.admin_message = optTruthy req.adminMessage ∧ c.admin_dni = some req.adminDni) := by
  constructor
  · intro hst c hc hcid
    have hne : req.estado ≠ "" := by
      intro he
      rw [he] at hst
      exact absurd hst (by decide)
    rw [updateCita_good_path db id req u hne hdni (by simp [hst]) hadm hrol hex] at hc
    rw [List.mem_map] at hc
    obtain ⟨c0, _, rfl⟩ := hc
    by_cases h0 : (c0.id == id) = true
    · simp [h0, hst]
    · rw [if_neg h0] at hcid
      exact absurd (by simp [hcid]) h0
  · intro hst c hc hcid
    have hne : req.estado ≠ "" := by
      intro he
      rw [he] at hst
      exact absurd hst (by decide)
    rw [updateCita_good_path db id req u hne hdni (by simp [hst]) hadm hrol hex] at hc
    rw [List.mem_map] at hc
    obtain ⟨c0, _, rfl⟩ := hc
    by_cases h0 : (c0.id == id) = true
    · simp [h0, hst]
    · rw [if_neg h0] at hcid
      exact absurd (by simp [hcid]) h0

/-- Witness for C5: a rejection with message "sin stock" on the occupied
pending appointment, by the seeded admin. -/
theorem updateCita_admin_message_semantics_witness :
    (normalizeEstado "rechazada" = "aceptada" →
      ∀ c ∈ (updateCita wDBocupada 1
          { estado := "rechazada", adminDni := "12345678",
            adminMessage := some "sin stock" }).db.citas,
        c.id = 1 → c.admin_message = none ∧ c.admin_dni = some "12345678") ∧
    (normalizeEstado "rechazada" = "rechazada" →
      ∀ c ∈ (updateCita wDBocupada 1
          { estado := "rechazada", adminDni := "12345678",
            adminMessage := some "sin stock" }).db.citas,
        c.id = 1 → c.admin_message = optTruthy (some "sin stock") ∧
          c.admin_dni = some "12345678") :=
  updateCita_admin_message_semantics wDBocupada 1
    { estado := "rechazada", adminDni := "12345678", adminMessage := some "sin stock" }
    wAdmin (by decide) (by decide) (by decide) (by decide)

/-- C6: an appointment-creation request whose combined date-time falls on
a Saturday or Sunday, or whose time lies outside 09:00–13:00 or
15:00–18:00 (the top-of-hour boundaries 13:00 and 18:00 allowed), is
answered 400 with `success = false`, the database is unchanged, and the
handler issues no SQL statement before answering. -/
theorem createCita_offpolicy_rejected_before_db (db : DB) (req : CreateReq)
    (y m d hh mi : Nat)
    (hf : parseFecha req.fecha = some (y, m, d))
    (hhora : parseHora req.hora = some (hh, mi))
    (hbad : dayOfWeek y m d = 0 ∨ dayOfWeek y m d = 6 ∨ timeAllowed hh mi = false) :
    (createCita db req).status = 400 ∧ (createCita db req).success = false ∧
    (createCita db req).db = db ∧ (createCita db req).dbQueries = 0 := by
  simp only [createCita]
  split
  · exact ⟨rfl, rfl, rfl, rfl⟩
  · simp only [hf, hhora]
    rcases hbad with h | h | h
    · rw [if_pos (Or.inl h)]
      exact ⟨rfl, rfl, rfl, rfl⟩
    · rw [if_pos (Or.inr h)]
      exact ⟨rfl, rfl, rfl, rfl⟩
    · by_cases hday : dayOfWeek y m d = 0 ∨ dayOfWeek y m d = 6
      · rw [if_pos hday]
        exact ⟨rfl, rfl, rfl, rfl⟩
      · rw [if_neg hday, if_pos (show (!timeAllowed hh mi) = true by rw [h]; rfl)]
        exact ⟨rfl, rfl, rfl, rfl⟩

/-- Witness for C6: a request for Saturday 2024-01-13 at 09:00 from the
base state. -/
theorem createCita_offpolicy_rejected_before_db_witness :
    (createCita wDB wReqSabado).status = 400 ∧ (createCita wDB wReqSabado).success = false ∧
    (createCita wDB wReqSabado).db = wDB ∧ (createCita wDB wReqSabado).dbQueries = 0 :=
  createCita_offpolicy_rejected_before_db wDB wReqSabado 2024 1 13 9 0
    (by decide) (by decide) (Or.inr (Or.inl (by decide)))

/-- C7: from any state in which the 2024-01-15 (a Monday) 09:00 slot
carries no appointment, a creation request by an existing user for that
slot succeeds, and the availability query for 2024-01-15 in the resulting
state reports the 09:00 slot with `available = false`. -/
theorem create_then_availability_roundtrip (db : DB) (dni motivo : String)
    (hdni : dni ≠ "") (hmot : motivo ≠ "")
    (huser : db.usuarios.any (fun u => u.dni == dni) = true)
    (hfree : db.citas.any (fun c => c.fecha_hora == "2024-01-15 09:00:00") = false) :
    (createCita db (⟨dni, none, "2024-01-15", "09:00", motivo⟩ : CreateReq)).status = 201 ∧
    (createCita db (⟨dni, none, "2024-01-15", "09:00", motivo⟩ : CreateReq)).success = true ∧
    ∃ slots,
      availability (createCita db (⟨dni, none, "2024-01-15", "09:00", motivo⟩ : CreateReq)).db "2024-01-15" none = AvailResult.ok slots ∧
      slots.head? = some { time := "09:00", available := false } := by
  have h201 : createCita db
      (⟨dni, none, "2024-01-15", "09:00", motivo⟩ : CreateReq) =
      { status := 201, success := true, message := "Cita agendada"
        db := { db with
          citas := db.citas ++
            [{ id := db.nextCitaId, dni := dni, idVehiculo := none
               fecha_hora := "2024-01-15 09:00:00", motivo := motivo, estado := "pendiente"
               admin_dni := none, admin_message := none }]
          nextCitaId := db.nextCitaId + 1 }
        dbQueries := 3 } := by
    simp only [createCita]
    rw [if_neg (show ¬(dni = "" ∨ ("2024-01-15" : String) = "" ∨ ("09:00" : String) = "" ∨
      motivo = "") by simp [hdni, hmot])]
    simp only [show parseFecha "2024-01-15" = some (2024, 1, 15) from by decide,
      show parseHora "09:00" = some (9, 0) from by decide]
    rw [if_neg (show ¬(dayOfWeek 2024 1 15 = 0 ∨ dayOfWeek 2024 1 15 = 6) by decide)]
    rw [if_neg (show ¬((!timeAllowed 9 0) = true) by decide)]
    rw [if_neg (show ¬((!db.usuarios.any fun u => u.dni == dni) = true) by
      rw [huser]; decide)]
    simp only [optTruthy]
    rw [if_neg (show ¬((db.citas.any fun c =>
        c.fecha_hora == fechaHoraStr "2024-01-15" "09:00") = true) by
      rw [show fechaHoraStr "2024-01-15" "09:00" = "2024-01-15 09:00:00" from rfl, hfree]
      decide)]
    rfl
  refine ⟨by rw [h201], by rw [h201], ?_⟩
  rw [h201]
  refine ⟨_, rfl, ?_⟩
  have hf0 : db.citas.filter
      (fun c => c.fecha_hora == "2024-01-15" ++ " " ++ "09:00" ++ ":00") = [] := by
    rw [List.filter_eq_nil_iff]
    intro c hc
    have h2 := List.any_eq_false.mp hfree c hc
    simp only [show ("2024-01-15" ++ " " ++ "09:00" ++ ":00" : String) =
      "2024-01-15 09:00:00" from rfl]
    simp [h2]
  simp only [slotTimes, List.map_cons, List.head?_cons, Option.some.injEq]
  simp only [countCitasAt, List.filter_append, hf0, List.nil_append]
  simp [List.filter,
    show (("2024-01-15 09:00:00" : String) == "2024-01-15" ++ " " ++ "09:00" ++ ":00") = true
      from by decide]
  simp [optTruthy]

/-- Witness for C7: the seeded client books the free Monday slot from the
base state. -/
theorem create_then_availability_roundtrip_witness :
    (createCita wDB (⟨"87654321", none, "2024-01-15", "09:00", "consulta"⟩ : CreateReq)).status = 201 ∧
    (createCita wDB (⟨"87654321", none, "2024-01-15", "09:00", "consulta"⟩ : CreateReq)).success = true ∧
    ∃ slots,
      availability (createCita wDB (⟨"87654321", none, "2024-01-15", "09:00", "consulta"⟩ : CreateReq)).db "2024-01-15" none =
        AvailResult.ok slots ∧
      slots.head? = some { time := "09:00", available := false } :=
  create_then_availability_roundtrip wDB "87654321" "consulta"
    (by decide) (by decide) (by decide) (by decide)

/-- The register handler either fails leaving the database unchanged, or
answers 201 and appends exactly one user row built from the request. -/
theorem registerUser_cases (hash : String → String) (db : DB) (req : RegisterReq) :
    ((registerUser hash db req).success = false ∧ (registerUser hash db req).db = db) ∨
    ∃ role, registerUser hash db req =
      { status := 201, success := true, message := "Usuario registrado exitosamente"
        db := { db with usuarios := db.usuarios ++
          [{ dni := req.dni, nombre := req.nombre, apellido := req.apellido
             telefono := req.telefono, password := hash req.password
             rol := role, activo := true }] } } := by
  simp only [registerUser, registerInsertPhase]
  repeat' split
  all_goals first
    | exact Or.inl ⟨rfl, rfl⟩
    | exact Or.inr ⟨_, rfl⟩

/-- The shared insert phase of the register handler answers the
duplicate-phone 400 when the DNI is fresh but the phone is taken. -/
theorem registerInsertPhase_phone_dup (hash : String → String) (db : DB)
    (req : RegisterReq) (role : String)
    (hfresh : db.usuarios.any (fun u => u.dni == req.dni) = false)
    (hphone : db.usuarios.any (fun u => u.telefono == req.telefono) = true) :
    registerInsertPhase hash db req role =
      { status := 400, success := false
        message := "Ya existe una cuenta con este teléfono", db := db } := by
  simp only [registerInsertPhase]
  rw [if_neg (show ¬((db.usuarios.any fun u => u.dni == req.dni) = true) by
    rw [hfresh]; decide)]
  rw [if_pos hphone]

/-- A registration can only succeed when no existing user carries the
request's phone number: the insert lies in the else branch of the
duplicate-phone check. -/
theorem registerUser_success_phone_free (hash : String → String) (db : DB)
    (req : RegisterReq)
    (h : (registerUser hash db req).success = true) :
    db.usuarios.any (fun u => u.telefono == req.telefono) = false := by
  simp only [registerUser, registerInsertPhase] at h
  repeat' split at h
  all_goals simp at h
  all_goals
    simp only [Bool.not_eq_true] at *
    assumption

/-- A registration request whose phone number an existing user already
carries never changes the database, whatever its other fields. -/
theorem registerUser_same_phone_no_insert (hash : String → String) (db : DB)
    (req : RegisterReq)
    (hphone : db.usuarios.any (fun u => u.telefono == req.telefono) = true) :
    (registerUser hash db req).db = db := by
  rcases registerUser_cases hash db req with ⟨_, hdb⟩ | ⟨role, heq⟩
  · exact hdb
  · have hfree := registerUser_success_phone_free hash db req (by rw [heq])
    rw [hphone] at hfree
    exact absurd hfree (by decide)

/-- C8 counterexample: the second registration carries the same phone as
the first (which succeeded) but also the same DNI, and the handler checks
the DNI first: the answer is the duplicate-DNI message, not the
duplicate-phone one — "whatever its DNI" fails. -/
theorem register_same_phone_dni_message_first :
    (registerUser id wDBvacia wRegAna).success = true ∧
    (registerUser id (registerUser id wDBvacia wRegAna).db wRegAna).status = 400 ∧
    (registerUser id (registerUser id wDBvacia wRegAna).db wRegAna).success = false ∧
    (registerUser id (registerUser id wDBvacia wRegAna).db wRegAna).message =
      "Ya existe una cuenta con este DNI" ∧
    "Ya existe una cuenta con este DNI" ≠ "Ya existe una cuenta con este teléfono" ∧
    (registerUser id (registerUser id wDBvacia wRegAna).db wRegAna).db =
      (registerUser id wDBvacia wRegAna).db := by
  decide

/-- C8 (amended): when a first registration succeeds and a second request
carries the same phone number, the second creates no user row (whatever
its DNI and other fields: the database is unchanged); and when it
additionally passes its field, password length, role and creator
validations and its DNI is not already taken, it fails with 400,
`success = false` and the duplicate-phone message. -/
theorem register_duplicate_phone_rejected (hash : String → String) (db : DB)
    (req1 req2 : RegisterReq)
    (h1 : (registerUser hash db req1).success = true)
    (htel : req2.telefono = req1.telefono) :
    (registerUser hash (registerUser hash db req1).db req2).db =
      (registerUser hash db req1).db ∧
    (req2.dni ≠ "" → req2.nombre ≠ "" → req2.apellido ≠ "" →
      ¬(req2.password.length < 6) → req2.password ≠ "" →
      rolInvalid req2.rol = false →
      (match optTruthy req2.creatorDni with
        | some cd =>
          ((registerUser hash db req1).db.usuarios.find?
            (fun u => u.dni == cd)).isSome = true
        | none => req2.rol ≠ some "admin") →
      (registerUser hash db req1).db.usuarios.any
        (fun u => u.dni == req2.dni) = false →
      (registerUser hash (registerUser hash db req1).db req2).status = 400 ∧
      (registerUser hash (registerUser hash db req1).db req2).success = false ∧
      (registerUser hash (registerUser hash db req1).db req2).message =
        "Ya existe una cuenta con este teléfono") := by
  rcases registerUser_cases hash db req1 with ⟨hfail, _⟩ | ⟨role1, heq1⟩
  · rw [h1] at hfail
    exact absurd hfail (by decide)
  · have htel1 : req1.telefono ≠ "" := by
      intro he
      simp [registerUser, he] at h1
    have htel2 : req2.telefono ≠ "" := by
      rw [htel]
      exact htel1
    have hphone : (registerUser hash db req1).db.usuarios.any
        (fun u => u.telefono == req2.telefono) = true := by
      rw [heq1, List.any_eq_true]
      refine ⟨_, List.mem_append_right _ (List.mem_singleton.mpr rfl), ?_⟩
      simp [htel]
    constructor
    · exact registerUser_same_phone_no_insert hash _ req2 hphone
    · intro hdni2 hnom2 hape2 hpw2 hpwne2 hrol2 hcreator hfresh
      obtain ⟨db1, hdb1⟩ : ∃ d, (registerUser hash db req1).db = d := ⟨_, rfl⟩
      rw [hdb1] at hphone hfresh hcreator ⊢
      simp only [registerUser]
      rw [if_neg (show ¬(req2.dni = "" ∨ req2.nombre = "" ∨ req2.apellido = "" ∨
        req2.telefono = "" ∨ req2.password = "") by
          simp [hdni2, hnom2, hape2, htel2, hpwne2])]
      rw [if_neg hpw2]
      rw [if_neg (show ¬(rolInvalid req2.rol = true) by rw [hrol2]; decide)]
      split
      · rename_i cd hov
        rw [hov] at hcreator
        obtain ⟨cu, hcu⟩ := Option.isSome_iff_exists.mp hcreator
        split
        · rename_i hnone
          rw [hnone] at hcu
          exact Option.noConfusion hcu
        · rw [registerInsertPhase_phone_dup hash db1 req2 _ hfresh hphone]
          exact ⟨rfl, rfl, rfl⟩
      · rename_i hov
        rw [hov] at hcreator
        rw [if_neg (show ¬((req2.rol == some "admin") = true) by simp [hcreator])]
        rw [registerInsertPhase_phone_dup hash db1 req2 _ hfresh hphone]
        exact ⟨rfl, rfl, rfl⟩

/-- Witness for C8 (amended): Ana registers, then Bob registers with a
fresh DNI but Ana's phone number: the database is unchanged and the
answer is the duplicate-phone 400. -/
theorem register_duplicate_phone_rejected_witness :
    (registerUser id (registerUser id wDBvacia wRegAna).db wRegBob).db =
      (registerUser id wDBvacia wRegAna).db ∧
    (registerUser id (registerUser id wDBvacia wRegAna).db wRegBob).status = 400 ∧
    (registerUser id (registerUser id wDBvacia wRegAna).db wRegBob).success = false ∧
    (registerUser id (registerUser id wDBvacia wRegAna).db wRegBob).message =
      "Ya existe una cuenta con este teléfono" :=
  ⟨(register_duplicate_phone_rejected id wDBvacia wRegAna wRegBob
      (by decide) (by decide)).1,
   (register_duplicate_phone_rejected id wDBvacia wRegAna wRegBob
      (by decide) (by decide)).2
    (by decide) (by decide) (by decide) (by decide) (by decide) (by decide)
    (by exact (by decide : wRegBob.rol ≠ some "admin"))
    (by decide)⟩

/-- C9: registration creates an admin user only when the request's
creatorDni names an existing admin: any user row the register handler
appends with role `admin` implies the creator lookup succeeded on an
admin; and a well-formed public registration requesting `rol = admin`
without a creatorDni is answered 403 with no user created. -/
theorem register_admin_role_needs_admin_creator (hash : String → String) (db : DB)
    (req : RegisterReq) :
    (∀ nu, (registerUser hash db req).db.usuarios = db.usuarios ++ [nu] → nu.rol = "admin" →
      ∃ cd cu, optTruthy req.creatorDni = some cd ∧
        db.usuarios.find? (fun u => u.dni == cd) = some cu ∧ cu.rol = "admin") ∧
    (req.dni ≠ "" → req.nombre ≠ "" → req.apellido ≠ "" → req.telefono ≠ "" →
      req.password ≠ "" → ¬(req.password.length < 6) →
      optTruthy req.creatorDni = none → req.rol = some "admin" →
      (registerUser hash db req).status = 403 ∧ (registerUser hash db req).success = false ∧
      (registerUser hash db req).db = db) := by
  have hlen : ∀ (l : List Usuario) (x : Usuario), l ≠ l ++ [x] := by
    intro l x h
    have h2 := congrArg List.length h
    simp at h2
  constructor
  · intro nu happ hrol
    simp only [registerUser, registerInsertPhase] at happ
    repeat' split at happ
    all_goals try exact absurd happ (hlen _ _)
    · rename_i v heq1 x u2 heq2 hdupdni hdupphone hcuadmin
      exact ⟨v, u2, heq1, heq2, by simpa using hcuadmin⟩
    · have h2 := List.append_cancel_left happ
      simp only [List.cons.injEq, and_true] at h2
      rw [← h2] at hrol
      simp at hrol
    · rename_i hpub hdupdni hdupphone veh2 v heq
      have h2 := List.append_cancel_left happ
      simp only [List.cons.injEq, and_true] at h2
      rw [← h2] at hrol
      simp at hrol
      subst hrol
      cases hre : req.rol with
      | none =>
        rw [hre] at heq
        simp [optTruthy] at heq
      | some s =>
        rw [hre] at heq
        simp only [optTruthy] at heq
        split at heq
        · exact Option.noConfusion heq
        · injection heq with hs
          rw [hre, hs] at hpub
          simp at hpub
    · have h2 := List.append_cancel_left happ
      simp only [List.cons.injEq, and_true] at h2
      rw [← h2] at hrol
      simp at hrol
  · intro hdni hnom hape htel hpw hpwlen hov hroladmin
    simp only [registerUser]
    rw [if_neg (show ¬(req.dni = "" ∨ req.nombre = "" ∨ req.apellido = "" ∨
      req.telefono = "" ∨ req.password = "") by simp [hdni, hnom, hape, htel, hpw])]
    rw [if_neg hpwlen]
    rw [if_neg (show ¬(rolInvalid req.rol = true) by
      rw [show rolInvalid req.rol = false by rw [hroladmin]; rfl]
      decide)]
    simp only [hov]
    rw [if_pos (show (req.rol == some "admin") = true by simp [hroladmin])]
    exact ⟨rfl, rfl, rfl⟩

/-- Witness for C9: the public admin-role registration request against
the base state is answered 403 and the database is unchanged. -/
theorem register_admin_role_needs_admin_creator_witness :
    (registerUser id wDB wRegAdminPublico).status = 403 ∧
    (registerUser id wDB wRegAdminPublico).success = false ∧
    (registerUser id wDB wRegAdminPublico).db = wDB :=
  (register_admin_role_needs_admin_creator id wDB wRegAdminPublico).2
    (by decide) (by decide) (by decide) (by decide) (by decide) (by decide)
    (by decide) (by decide)

/-- C10: a login request naming an existing user whose `activo` flag is
false is answered 401 "Cuenta desactivada" without the submitted password
ever being compared against the stored hash — for every comparison
function, in particular one that accepts any password. -/
theorem login_inactive_never_compares (bc : String → String → Bool) (db : DB)
    (dni pw : String) (u : Usuario)
    (hdni : dni ≠ "") (hpw : pw ≠ "")
    (hfind : db.usuarios.find? (fun u2 => u2.dni == dni) = some u)
    (hina : u.activo = false) :
    login bc db dni pw =
      { status := 401, success := false, message := "Cuenta desactivada"
        comparedPassword := false } := by
  simp only [login]
  rw [if_neg (show ¬(dni = "" ∨ pw = "") by simp [hdni, hpw])]
  simp only [hfind]
  rw [if_pos (show (!u.activo) = true by rw [hina]; rfl)]

/-- Witness for C10: the deactivated user submits the exact stored hash
as password against a comparator accepting everything, and is still
rejected without a comparison. -/
theorem login_inactive_never_compares_witness :
    login (fun _ _ => true) wDBinactivo "55555555" "hrita" =
      { status := 401, success := false, message := "Cuenta desactivada"
        comparedPassword := false } :=
  login_inactive_never_compares (fun _ _ => true) wDBinactivo "55555555" "hrita" wInactivo
    (by decide) (by decide) (by decide) (by decide)

end Meyer
